import Mathlib

/-!
Verification of the quiz-video compositor core
(`visual_effects_quiz.py` and the layout/timeline portion of `template_quiz.py`).

Shallow embedding conventions:
* Python floats carrying times and durations are modelled as exact rationals (ℚ).
* Pixel coordinates and canvas dimensions are modelled as integers (ℤ).
* Python `int(x)` is truncation toward zero, modelled by `truncInt`.
* Python `//` (floor division on ints) is modelled by `Int.fdiv`.
* The module-level mutable resolution globals `WIDTH`/`HEIGHT` are threaded as
  explicit parameters `W H` through every function that reads them.
-/

/-- Python `int(q)`: truncation toward zero. -/
def truncInt (q : ℚ) : ℤ :=
  if 0 ≤ q then ⌊q⌋ else ⌈q⌉

/-- Canonical design width (`BASE_WIDTH = 1080` in `visual_effects_quiz.py`). -/
def BASE_WIDTH : ℤ := 1080

/-- Canonical design height (`BASE_HEIGHT = 1920` in `visual_effects_quiz.py`). -/
def BASE_HEIGHT : ℤ := 1920

/-- `res_scale(value, dimension)` from `visual_effects_quiz.py` lines 24-51.
The globals `WIDTH`/`HEIGHT` are passed as `W`/`H`.  The code computes a float
`scale_factor` (height ratio, width ratio, min of both, or `1.0` for any other
`dimension` string) and returns `int(value * scale_factor)`. -/
def res_scale (W H : ℤ) (value : ℚ) (dimension : String) : ℤ :=
  if dimension = "height" then
    truncInt (value * ((H : ℚ) / (BASE_HEIGHT : ℚ)))
  else if dimension = "width" then
    truncInt (value * ((W : ℚ) / (BASE_WIDTH : ℚ)))
  else if dimension = "both" then
    truncInt (value * min ((W : ℚ) / (BASE_WIDTH : ℚ)) ((H : ℚ) / (BASE_HEIGHT : ℚ)))
  else
    truncInt (value * 1)

theorem truncInt_intCast (v : ℤ) : truncInt (v : ℚ) = v := by
  unfold truncInt
  split <;> simp

/-- C3 counterexample: `res_scale` truncates (Python `int()`), it does not round.
At resolution 1080×1280, `res_scale(4, 'height')` is `int(4 * 1280/1920) = int(8/3) = 2`,
while `round(8/3) = 3`.  And at the canonical resolution 1080×1920 the function is not
the identity on every value: `res_scale(5/2, 'height') = 2 ≠ 5/2`. -/
theorem C3_counterexample :
    res_scale 1080 1280 4 "height" ≠ round ((4 : ℚ) * ((1280 : ℚ) / (1920 : ℚ))) ∧
    ((res_scale 1080 1920 (5/2 : ℚ) "height" : ℤ) : ℚ) ≠ (5/2 : ℚ) := by
  constructor
  · show truncInt ((4 : ℚ) * ((1280 : ℚ) / (1920 : ℚ))) ≠ _
    norm_num [truncInt, round_eq]
  · show ((truncInt ((5/2 : ℚ) * ((1920 : ℚ) / (1920 : ℚ))) : ℤ) : ℚ) ≠ (5/2 : ℚ)
    norm_num [truncInt]

/-- C3 (amended): for every value `v`, `res_scale(v, axis)` returns the truncation
toward zero (Python `int()`) of `v * currentAxisSize / canonicalAxisSize`, where the
canonical size is 1080×1920 and axis `both` uses the minimum of the two ratios; and
when the current resolution equals the canonical 1080×1920, `res_scale` is the
identity on integer inputs. -/
theorem C3_res_scale_amended :
    (∀ (v : ℚ) (W H : ℤ), res_scale W H v "height" = truncInt (v * ((H : ℚ) / 1920))) ∧
    (∀ (v : ℚ) (W H : ℤ), res_scale W H v "width" = truncInt (v * ((W : ℚ) / 1080))) ∧
    (∀ (v : ℚ) (W H : ℤ), res_scale W H v "both" =
      truncInt (v * min ((W : ℚ) / 1080) ((H : ℚ) / 1920))) ∧
    (∀ v : ℤ, res_scale 1080 1920 (v : ℚ) "height" = v ∧
      res_scale 1080 1920 (v : ℚ) "width" = v ∧
      res_scale 1080 1920 (v : ℚ) "both" = v) := by
  refine ⟨fun v W H => rfl, fun v W H => rfl, fun v W H => rfl, fun v => ?_⟩
  refine ⟨?_, ?_, ?_⟩ <;>
    simp [res_scale, BASE_WIDTH, BASE_HEIGHT, truncInt_intCast]

/-- C9: for any axis string outside {height, width, both}, `res_scale` raises no
error: the scale factor silently falls back to `1.0` and the result is `int(v)`,
the value truncated to an integer, unscaled. -/
theorem C9_res_scale_unknown_axis (W H : ℤ) (v : ℚ) (axis : String)
    (h1 : axis ≠ "height") (h2 : axis ≠ "width") (h3 : axis ≠ "both") :
    res_scale W H v axis = truncInt v := by
  simp [res_scale, h1, h2, h3]

/-- C9 witness: the unknown axis string `diagonal` at a non-canonical resolution
leaves `7/2` unscaled and truncated to `3`. -/
theorem C9_res_scale_unknown_axis_witness :
    res_scale 500 700 (7/2 : ℚ) "diagonal" = truncInt (7/2 : ℚ) :=
  C9_res_scale_unknown_axis 500 700 (7/2) "diagonal"
    (by decide) (by decide) (by decide)

/-!
Timeline builder: `QuizTemplate.generate`, `template_quiz.py` lines 230-245.
The nine synthesized speech segments are hook, question, opt_a..opt_d, think,
explanation and cta; the code reads eight of their durations (it never reads the
think segment's audio duration — the fixed `THINK_TIME` constant stands in for it).
-/

/-- Durations of the nine synthesized speech segments. -/
structure SegmentDurations where
  hook : ℚ
  question : ℚ
  opt_a : ℚ
  opt_b : ℚ
  opt_c : ℚ
  opt_d : ℚ
  think : ℚ
  explanation : ℚ
  cta : ℚ

/-- `THINK_TIME = 3.0` (`template_quiz.py` line 231). -/
def THINK_TIME : ℚ := 3

/-- `OUTRO_DURATION = 4.0` (`template_quiz.py` line 244). -/
def OUTRO_DURATION : ℚ := 4

/-- `t_hook = 0`. -/
def t_hook (_D : SegmentDurations) : ℚ := 0

/-- `t_q = t_hook + aud_hook.duration`. -/
def t_q (D : SegmentDurations) : ℚ := t_hook D + D.hook

/-- `t_a = t_q + aud_q.duration`. -/
def t_a (D : SegmentDurations) : ℚ := t_q D + D.question

/-- `t_b = t_a + aud_a.duration`. -/
def t_b (D : SegmentDurations) : ℚ := t_a D + D.opt_a

/-- `t_c = t_b + aud_b.duration`. -/
def t_c (D : SegmentDurations) : ℚ := t_b D + D.opt_b

/-- `t_d = t_c + aud_c.duration`. -/
def t_d (D : SegmentDurations) : ℚ := t_c D + D.opt_c

/-- `t_think = t_d + aud_d.duration`. -/
def t_think (D : SegmentDurations) : ℚ := t_d D + D.opt_d

/-- `t_ans = t_think + THINK_TIME` (the think audio's own duration is not used). -/
def t_ans (D : SegmentDurations) : ℚ := t_think D + THINK_TIME

/-- `t_cta = t_ans + aud_expl.duration`. -/
def t_cta (D : SegmentDurations) : ℚ := t_ans D + D.explanation

/-- `t_outro = t_cta + aud_cta.duration`. -/
def t_outro (D : SegmentDurations) : ℚ := t_cta D + D.cta

/-- `total_dur = t_outro + OUTRO_DURATION`. -/
def total_dur (D : SegmentDurations) : ℚ := t_outro D + OUTRO_DURATION

/-- Duration set refuting C1: hook duration 0 (so the hook and question start
times coincide) and think duration 1 (which the timeline never adds). -/
def C1_D0 : SegmentDurations :=
  { hook := 0, question := 1, opt_a := 1, opt_b := 1, opt_c := 1, opt_d := 1,
    think := 1, explanation := 1, cta := 1 }

/-- C1 counterexample: for the non-negative duration set `C1_D0` the start times
are not strictly increasing (`t_hook = t_q = 0` since the hook duration is 0),
and the total duration (14) differs from the sum of all 9 segment durations plus
3.0 plus 4.0 (15): the think segment's audio duration never enters the timeline. -/
theorem C1_counterexample :
    ¬ (t_hook C1_D0 < t_q C1_D0) ∧
    total_dur C1_D0 ≠
      (C1_D0.hook + C1_D0.question + C1_D0.opt_a + C1_D0.opt_b + C1_D0.opt_c +
        C1_D0.opt_d + C1_D0.think + C1_D0.explanation + C1_D0.cta) +
        THINK_TIME + OUTRO_DURATION := by
  constructor
  · simp [t_hook, t_q, C1_D0]
  · norm_num [total_dur, t_outro, t_cta, t_ans, t_think, t_d, t_c, t_b, t_a, t_q,
      t_hook, C1_D0, THINK_TIME, OUTRO_DURATION]

/-- C1 (amended): for every set of 9 speech-segment durations in which the eight
durations the timeline reads (hook, question, opt_a..opt_d, explanation, cta) are
positive, the timeline builder produces strictly increasing absolute start times in
segment order (hook, question, A, B, C, D, think, answer, cta, outro), and the
total video duration equals the sum of those eight segment durations (the think
segment's audio duration is not used) plus the fixed 3.0s think-pause constant
plus the fixed 4.0s outro constant. -/
theorem C1_timeline_amended (D : SegmentDurations)
    (hh : 0 < D.hook) (hq : 0 < D.question) (ha : 0 < D.opt_a) (hb : 0 < D.opt_b)
    (hc : 0 < D.opt_c) (hd : 0 < D.opt_d) (he : 0 < D.explanation)
    (hcta : 0 < D.cta) :
    (t_hook D < t_q D ∧ t_q D < t_a D ∧ t_a D < t_b D ∧ t_b D < t_c D ∧
      t_c D < t_d D ∧ t_d D < t_think D ∧ t_think D < t_ans D ∧
      t_ans D < t_cta D ∧ t_cta D < t_outro D) ∧
    total_dur D =
      (D.hook + D.question + D.opt_a + D.opt_b + D.opt_c + D.opt_d +
        D.explanation + D.cta) + THINK_TIME + OUTRO_DURATION := by
  unfold total_dur t_outro t_cta t_ans t_think t_d t_c t_b t_a t_q t_hook
    THINK_TIME OUTRO_DURATION
  exact ⟨⟨by linarith, by linarith, by linarith, by linarith, by linarith,
    by linarith, by linarith, by linarith, by linarith⟩, by ring⟩

/-- C1 witness: the amended timeline claim at the all-ones duration set; the total
is 1×8 + 3 + 4 = 15. -/
theorem C1_timeline_witness :
    (t_hook ⟨1, 1, 1, 1, 1, 1, 1, 1, 1⟩ < t_q ⟨1, 1, 1, 1, 1, 1, 1, 1, 1⟩ ∧
      t_q ⟨1, 1, 1, 1, 1, 1, 1, 1, 1⟩ < t_a ⟨1, 1, 1, 1, 1, 1, 1, 1, 1⟩ ∧
      t_a ⟨1, 1, 1, 1, 1, 1, 1, 1, 1⟩ < t_b ⟨1, 1, 1, 1, 1, 1, 1, 1, 1⟩ ∧
      t_b ⟨1, 1, 1, 1, 1, 1, 1, 1, 1⟩ < t_c ⟨1, 1, 1, 1, 1, 1, 1, 1, 1⟩ ∧
      t_c ⟨1, 1, 1, 1, 1, 1, 1, 1, 1⟩ < t_d ⟨1, 1, 1, 1, 1, 1, 1, 1, 1⟩ ∧
      t_d ⟨1, 1, 1, 1, 1, 1, 1, 1, 1⟩ < t_think ⟨1, 1, 1, 1, 1, 1, 1, 1, 1⟩ ∧
      t_think ⟨1, 1, 1, 1, 1, 1, 1, 1, 1⟩ < t_ans ⟨1, 1, 1, 1, 1, 1, 1, 1, 1⟩ ∧
      t_ans ⟨1, 1, 1, 1, 1, 1, 1, 1, 1⟩ < t_cta ⟨1, 1, 1, 1, 1, 1, 1, 1, 1⟩ ∧
      t_cta ⟨1, 1, 1, 1, 1, 1, 1, 1, 1⟩ < t_outro ⟨1, 1, 1, 1, 1, 1, 1, 1, 1⟩) ∧
    total_dur ⟨1, 1, 1, 1, 1, 1, 1, 1, 1⟩ =
      ((1 : ℚ) + 1 + 1 + 1 + 1 + 1 + 1 + 1) + THINK_TIME + OUTRO_DURATION :=
  C1_timeline_amended ⟨1, 1, 1, 1, 1, 1, 1, 1, 1⟩
    (by norm_num) (by norm_num) (by norm_num) (by norm_num)
    (by norm_num) (by norm_num) (by norm_num) (by norm_num)

/-!
Typewriter text: `QuizVisualEffects.create_typewriter_text`,
`visual_effects_quiz.py` lines 741-891.  The text is split into words; word `i`
(0-indexed) starts at `start_time + i * word_delay` where
`word_delay = (audio_duration * 0.9) / word_count`; a non-final word is shown
for exactly `word_delay`, and the final word is shown for
`total_remaining_time - i * word_delay` (or `audio_duration - i * word_delay`
when no total remaining time is supplied).
-/

/-- `reveal_duration = audio_duration * 0.9` (line 772). -/
def reveal_duration (audio_duration : ℚ) : ℚ := audio_duration * (9/10)

/-- `word_delay = reveal_duration / word_count` (line 773). -/
def word_delay (audio_duration : ℚ) (word_count : ℕ) : ℚ :=
  reveal_duration audio_duration / word_count

/-- `word_start = start_time + (i * word_delay)` (line 856). -/
def word_start (start_time audio_duration : ℚ) (word_count i : ℕ) : ℚ :=
  start_time + i * word_delay audio_duration word_count

/-- Word `i`'s clip duration (lines 859-865): `word_delay` for non-final words;
for the final word, the remaining time minus the time already spent revealing.
`total_remaining_time` is `none` when the caller omits it (the code's falsy test). -/
def word_duration (audio_duration : ℚ) (word_count : ℕ)
    (total_remaining_time : Option ℚ) (i : ℕ) : ℚ :=
  if i < word_count - 1 then
    word_delay audio_duration word_count
  else
    match total_remaining_time with
    | some t => t - i * word_delay audio_duration word_count
    | none => audio_duration - i * word_delay audio_duration word_count

/-- C2: typewriter schedule.  For `N ≥ 1` words with audio duration `A` starting
at `start`: word `i` becomes visible at exactly `start + i * (0.9*A/N)`; each
non-final word's visible window ends exactly when the next word appears (its clip
duration is the gap between consecutive word starts); the reveal completes (and the
final hold begins) at `start + 0.9*A`; and the sum of the words' visible windows
up to that point — window `i` running from `word_start i` to `word_start (i+1)` —
equals `0.9*A`. -/
theorem C2_typewriter_schedule (start A : ℚ) (N : ℕ)
    (total_remaining_time : Option ℚ) (hN : 1 ≤ N) :
    (∀ i : ℕ, word_start start A N i = start + i * ((9/10 * A) / N)) ∧
    (∀ i : ℕ, i < N - 1 →
      word_start start A N i + word_duration A N total_remaining_time i =
        word_start start A N (i + 1)) ∧
    word_start start A N N = start + 9/10 * A ∧
    (Finset.range N).sum
      (fun i => word_start start A N (i + 1) - word_start start A N i) =
      9/10 * A := by
  have hN0 : (N : ℚ) ≠ 0 := by
    exact_mod_cast Nat.one_le_iff_ne_zero.mp hN
  have hdelay : ∀ i : ℕ, word_start start A N (i + 1) - word_start start A N i =
      word_delay A N := by
    intro i
    unfold word_start
    push_cast
    ring
  have hstartN : word_start start A N N = start + 9/10 * A := by
    unfold word_start word_delay reveal_duration
    field_simp
    ring
  refine ⟨?_, ?_, hstartN, ?_⟩
  · intro i
    unfold word_start word_delay reveal_duration
    ring
  · intro i hi
    have hdur : word_duration A N total_remaining_time i = word_delay A N := by
      unfold word_duration
      rw [if_pos hi]
    rw [hdur, ← hdelay i]
    ring
  · rw [Finset.sum_range_sub (fun i => word_start start A N i) N, hstartN]
    unfold word_start
    push_cast
    ring

/-- C2 witness: three words over a 2-second audio clip starting at t = 5; word 1
appears at `5 + 1 * (0.9*2/3) = 5.6`, and word 0's window ends exactly there. -/
theorem C2_typewriter_witness :
    word_start 5 2 3 0 + word_duration 2 3 (some 30) 0 = word_start 5 2 3 1 :=
  (C2_typewriter_schedule 5 2 3 (some 30) (by norm_num)).2.1 0 (by norm_num)

/-!
Option cards: `QuizVisualEffects.create_options_sequence`,
`visual_effects_quiz.py` lines 894-996.  Each option dict carries text, start
time, duration, a correctness flag and (optionally) an explicit Y position.
TextClip construction is modelled as always succeeding (its failure is an
external rendering effect the claims do not touch).
-/

/-- One entry of `options_data` (the dict built in `template_quiz.py` lines
339-368).  `y_position` is `none` when the key is absent from the dict. -/
structure OptionData where
  text : String
  start_time : ℚ
  duration : ℚ
  is_correct : Bool
  y_position : Option ℤ

/-- `EasingFunctions.ease_out_elastic` (`visual_effects_quiz.py` lines 78-87):
`t` at the endpoints, otherwise `t * (2 - t) * overshoot`. -/
def ease_out_elastic (t overshoot : ℚ) : ℚ :=
  if t = 0 ∨ t = 1 then t else t * (2 - t) * overshoot

/-- `SLIDE_DURATION = 0.6` (line 983). -/
def SLIDE_DURATION : ℚ := 3/5

/-- `OPT_WIDTH = WIDTH - res_scale(120)` (line 924). -/
def OPT_WIDTH (W H : ℤ) : ℤ := W - res_scale W H 120 "height"

/-- Fallback `OPT_START_Y = res_scale(1050)` (lines 922, 956). -/
def OPT_START_Y (W H : ℤ) : ℤ := res_scale W H 1050 "height"

/-- Fallback `OPT_GAP = res_scale(130)` (lines 923, 957). -/
def OPT_GAP (W H : ℤ) : ℤ := res_scale W H 130 "height"

/-- The settled Y of option `i` (lines 952-958): the externally supplied
`y_position` when `use_relative_y` is set and the key is present, otherwise the
locally recomputed linear stack. -/
def option_final_y (W H : ℤ) (use_relative_y : Bool) (i : ℕ)
    (opt : OptionData) : ℤ :=
  match use_relative_y, opt.y_position with
  | true, some y => y
  | _, _ => OPT_START_Y W H + i * OPT_GAP W H

/-- The settled X of every option card: `(WIDTH - OPT_WIDTH) // 2`. -/
def option_settled_x (W H : ℤ) : ℤ := (W - OPT_WIDTH W H).fdiv 2

/-- `slide_position` (lines 960-980), the clip's position as a function of local
time `t`: during the first 0.6s the X eases from the off-screen edge
(`-OPT_WIDTH` for even-indexed options, `WIDTH` for odd) toward the centered X
with `ease_out_elastic(t/0.6, 1.08)`; afterwards the card sits at the settled
position.  The Y is the final Y throughout. -/
def option_slide_position (W H : ℤ) (i : ℕ) (final_y : ℤ) (t : ℚ) : ℚ × ℚ :=
  if t < SLIDE_DURATION then
    let progress := t / SLIDE_DURATION
    let eased := ease_out_elastic progress (27/25)
    let start_x : ℚ := if i % 2 = 0 then -(OPT_WIDTH W H : ℚ) else (W : ℚ)
    let final_x : ℚ := (option_settled_x W H : ℚ)
    (start_x + (final_x - start_x) * eased, (final_y : ℚ))
  else
    ((option_settled_x W H : ℚ), (final_y : ℚ))

/-- One produced option card clip: its start, duration, slide direction and
position function (lines 935, 983-987). -/
structure OptionClip where
  clipStart : ℚ
  clipDuration : ℚ
  fromLeft : Bool
  pos : ℚ → ℚ × ℚ

/-- The clip built for option `i` (lines 928-987): starts `SLIDE_DURATION`
before the option's nominal start time and lasts `duration + SLIDE_DURATION`;
even-indexed options slide from the left. -/
def make_option_clip (W H : ℤ) (use_relative_y : Bool) (i : ℕ)
    (opt : OptionData) : OptionClip :=
  { clipStart := opt.start_time - SLIDE_DURATION
    clipDuration := opt.duration + SLIDE_DURATION
    fromLeft := i % 2 = 0
    pos := option_slide_position W H i (option_final_y W H use_relative_y i opt) }

/-- `create_options_sequence`: one clip per option, indexed in order. -/
def create_options_sequence (W H : ℤ) (options_data : List OptionData)
    (use_relative_y : Bool) : List OptionClip :=
  options_data.mapIdx (fun i opt => make_option_clip W H use_relative_y i opt)

theorem create_options_sequence_getElem (W H : ℤ) (options_data : List OptionData)
    (use_relative_y : Bool) (i : ℕ) :
    (create_options_sequence W H options_data use_relative_y)[i]? =
      (options_data[i]?).map (make_option_clip W H use_relative_y i) := by
  unfold create_options_sequence
  simp [List.getElem?_mapIdx]

/-- C4: for option card `i` with nominal start time `s` and an explicitly
supplied `y_position`, the produced clip (a) is the `i`-th clip of the options
sequence, (b) starts exactly 0.6s before `s`, (c) slides in over the fixed 0.6s
window with the elastic-out easing (overshoot 1.08) from the left edge
(`x = -OPT_WIDTH` at `t = 0`) when `i` is even and from the right edge
(`x = WIDTH` at `t = 0`) when `i` is odd, and (d) settles at exactly the
externally supplied `y_position` — its Y is that value at every local time, and
from 0.6s on it sits at the settled centered position. -/
theorem C4_option_entrance (W H : ℤ) (options_data : List OptionData) (i : ℕ)
    (opt : OptionData) (y : ℤ)
    (hopt : options_data[i]? = some opt) (hy : opt.y_position = some y) :
    (create_options_sequence W H options_data true)[i]? =
      some (make_option_clip W H true i opt) ∧
    (make_option_clip W H true i opt).clipStart = opt.start_time - 3/5 ∧
    (make_option_clip W H true i opt).fromLeft = decide (i % 2 = 0) ∧
    ((make_option_clip W H true i opt).pos 0).1 =
      (if i % 2 = 0 then -(OPT_WIDTH W H : ℚ) else (W : ℚ)) ∧
    (∀ t : ℚ, 0 < t → t < 3/5 →
      ((make_option_clip W H true i opt).pos t).1 =
        (if i % 2 = 0 then -(OPT_WIDTH W H : ℚ) else (W : ℚ)) +
          ((option_settled_x W H : ℚ) -
            (if i % 2 = 0 then -(OPT_WIDTH W H : ℚ) else (W : ℚ))) *
            (t / (3/5) * (2 - t / (3/5)) * (27/25))) ∧
    (∀ t : ℚ, ((make_option_clip W H true i opt).pos t).2 = (y : ℚ)) ∧
    (∀ t : ℚ, 3/5 ≤ t →
      (make_option_clip W H true i opt).pos t =
        ((option_settled_x W H : ℚ), (y : ℚ))) := by
  have hfy : option_final_y W H true i opt = y := by
    unfold option_final_y
    rw [hy]
  refine ⟨?_, rfl, ?_, ?_, ?_, ?_, ?_⟩
  · rw [create_options_sequence_getElem, hopt]
    rfl
  · show decide (i % 2 = 0) = decide (i % 2 = 0)
    rfl
  · show (option_slide_position W H i (option_final_y W H true i opt) 0).1 = _
    unfold option_slide_position SLIDE_DURATION ease_out_elastic
    norm_num
  · intro t ht0 ht1
    show (option_slide_position W H i (option_final_y W H true i opt) t).1 = _
    unfold option_slide_position SLIDE_DURATION ease_out_elastic
    rw [if_pos (by exact ht1)]
    have hne0 : ¬ (t / (3/5 : ℚ) = 0 ∨ t / (3/5 : ℚ) = 1) := by
      push_neg
      constructor
      · positivity
      · intro hcontra
        have : t = 3/5 := by
          field_simp at hcontra
          linarith
        linarith
    simp only [hne0, if_false]
  · intro t
    show (option_slide_position W H i (option_final_y W H true i opt) t).2 = _
    unfold option_slide_position
    split <;> simp [hfy]
  · intro t ht
    show option_slide_position W H i (option_final_y W H true i opt) t = _
    unfold option_slide_position
    rw [if_neg (by rw [SLIDE_DURATION]; linarith), hfy]

/-- C4 witness: the first option (even index 0) of a one-option list with
explicit Y 1200 and nominal start 5 settles at Y 1200 from local time 0.6 on. -/
theorem C4_option_entrance_witness :
    (make_option_clip 1080 1920 true 0
        ⟨"A) Water", 5, 20, false, some 1200⟩).pos 1 =
      ((option_settled_x 1080 1920 : ℚ), (1200 : ℚ)) :=
  (C4_option_entrance 1080 1920 [⟨"A) Water", 5, 20, false, some 1200⟩] 0
    ⟨"A) Water", 5, 20, false, some 1200⟩ 1200 (by rfl) (by rfl)).2.2.2.2.2.2
    1 (by norm_num)

/-!
Answer reveal: `QuizVisualEffects.create_answer_reveal_animation`,
`visual_effects_quiz.py` lines 1094-1212.  The glow is placed at the correct
option's Y taken from `options_data`; every wrong option gets a dimming overlay
at its own Y from `options_data`; the confetti burst is 20 particles with angles
`(i/20) * 2π` all starting at `reveal_start_time + 0.3`.
Confetti angles are radians; a particle's angle is stored as its coefficient of
π (so particle `i` stores `(i/20) * 2 ∈ ℚ` and its angle in radians is that
coefficient times π), keeping the embedding executable.  The per-particle random
velocity and color draws do not affect any claimed quantity and are not modelled.
-/

/-- `correct_idx = ord(correct_option_letter) - ord('A')` (line 1115). -/
def correct_idx (letter : Char) : ℕ := letter.toNat - 'A'.toNat

/-- The glow Y (lines 1116-1119): the correct option's `y_position` from
`options_data`, falling back to `res_scale(1050)` when the entry or the key is
missing. -/
def reveal_correct_y (W H : ℤ) (options_data : List OptionData)
    (letter : Char) : ℤ :=
  match options_data[correct_idx letter]? with
  | some opt => opt.y_position.getD (res_scale W H 1050 "height")
  | none => res_scale W H 1050 "height"

/-- The dimming overlays' Ys (lines 1152-1165): for each option whose letter
`chr(ord('A') + i)` differs from the correct letter, an overlay at that option's
`y_position` (same `res_scale(1050)` fallback), in option order. -/
def reveal_dim_ys (W H : ℤ) (options_data : List OptionData)
    (letter : Char) : List ℤ :=
  (options_data.mapIdx fun i opt => (i, opt)).filterMap fun p =>
    if Char.ofNat ('A'.toNat + p.1) = letter then none
    else some (p.2.y_position.getD (res_scale W H 1050 "height"))

/-- One confetti particle (lines 1183-1207): launch-angle coefficient of π and
absolute start time. -/
structure Confetti where
  angle_pi_coeff : ℚ
  start : ℚ

/-- The 20 confetti particles: particle `i` has angle `(i/20) * 2π` (stored as
the coefficient `(i/20) * 2` of π) and starts at `reveal_start_time + 0.3`. -/
def confetti_particles (reveal_start_time : ℚ) : List Confetti :=
  (List.range 20).map fun (i : ℕ) => ⟨((i : ℚ) / 20) * 2, reveal_start_time + 3/10⟩

/-- The reveal layer's claim-relevant geometry and timing. -/
structure RevealEffects where
  glow_y : ℤ
  dim_ys : List ℤ
  confetti_center : ℤ × ℤ
  confetti : List Confetti

/-- `create_answer_reveal_animation` (lines 1094-1212), restricted to the
quantities the produced clips expose: the glow sits at `('center', correct_y)`;
the dim overlays sit at the wrong options' Ys; the confetti burst is centered at
`(WIDTH // 2, confetti_y)` where a `None` `confetti_y` argument defaults to
`correct_y`. -/
def create_answer_reveal_animation (W H : ℤ) (letter : Char)
    (options_data : List OptionData) (reveal_start_time : ℚ)
    (confetti_y : Option ℤ) : RevealEffects :=
  let correct_y := reveal_correct_y W H options_data letter
  { glow_y := correct_y
    dim_ys := reveal_dim_ys W H options_data letter
    confetti_center := (W.fdiv 2, confetti_y.getD correct_y)
    confetti := confetti_particles reveal_start_time }

/-- C5: for a four-entry `options_data` whose entries carry explicit
`y_position` values, the answer-reveal layer places its glow at exactly the
correct option's supplied Y, its dimming overlays at exactly the three incorrect
options' supplied Ys (in order), and — when no `confetti_y` override is given —
the confetti origin Y defaults to the correct option's supplied Y. -/
theorem C5_reveal_reuses_y (W H : ℤ) (o0 o1 o2 o3 : OptionData)
    (y0 y1 y2 y3 : ℤ) (r : ℚ) (letter : Char)
    (h0 : o0.y_position = some y0) (h1 : o1.y_position = some y1)
    (h2 : o2.y_position = some y2) (h3 : o3.y_position = some y3)
    (hL : letter = 'A' ∨ letter = 'B' ∨ letter = 'C' ∨ letter = 'D') :
    (create_answer_reveal_animation W H letter [o0, o1, o2, o3] r none).glow_y =
      [y0, y1, y2, y3].getD (correct_idx letter) 0 ∧
    (create_answer_reveal_animation W H letter [o0, o1, o2, o3] r none).dim_ys =
      [y0, y1, y2, y3].eraseIdx (correct_idx letter) ∧
    (create_answer_reveal_animation W H letter
        [o0, o1, o2, o3] r none).confetti_center.2 =
      (create_answer_reveal_animation W H letter [o0, o1, o2, o3] r none).glow_y := by
  have c65 : Char.ofNat ('A'.toNat + 0) = 'A' := by decide
  have c66 : Char.ofNat ('A'.toNat + 1) = 'B' := by decide
  have c67 : Char.ofNat ('A'.toNat + 2) = 'C' := by decide
  have c68 : Char.ofNat ('A'.toNat + 3) = 'D' := by decide
  rcases hL with h | h | h | h <;> subst h <;>
    refine ⟨?_, ?_, rfl⟩ <;>
      simp [create_answer_reveal_animation, reveal_correct_y, reveal_dim_ys,
        correct_idx, h0, h1, h2, h3, List.filterMap, List.mapIdx,
        List.mapIdx.go, c65, c66, c67, c68]

/-- C5 witness: with correct option B and supplied Ys 100/230/360/490, the glow
sits at 230, the dim overlays at 100, 360 and 490, and the confetti origin Y
defaults to 230. -/
theorem C5_reveal_witness :
    (create_answer_reveal_animation 1080 1920 'B'
        [⟨"A) a", 1, 10, false, some 100⟩, ⟨"B) b", 2, 10, true, some 230⟩,
          ⟨"C) c", 3, 10, false, some 360⟩, ⟨"D) d", 4, 10, false, some 490⟩]
        12 none).glow_y =
      [100, 230, 360, 490].getD (correct_idx 'B') 0 ∧
    (create_answer_reveal_animation 1080 1920 'B'
        [⟨"A) a", 1, 10, false, some 100⟩, ⟨"B) b", 2, 10, true, some 230⟩,
          ⟨"C) c", 3, 10, false, some 360⟩, ⟨"D) d", 4, 10, false, some 490⟩]
        12 none).dim_ys =
      [100, 230, 360, 490].eraseIdx (correct_idx 'B') ∧
    (create_answer_reveal_animation 1080 1920 'B'
        [⟨"A) a", 1, 10, false, some 100⟩, ⟨"B) b", 2, 10, true, some 230⟩,
          ⟨"C) c", 3, 10, false, some 360⟩, ⟨"D) d", 4, 10, false, some 490⟩]
        12 none).confetti_center.2 =
      (create_answer_reveal_animation 1080 1920 'B'
        [⟨"A) a", 1, 10, false, some 100⟩, ⟨"B) b", 2, 10, true, some 230⟩,
          ⟨"C) c", 3, 10, false, some 360⟩, ⟨"D) d", 4, 10, false, some 490⟩]
        12 none).glow_y :=
  C5_reveal_reuses_y 1080 1920
    ⟨"A) a", 1, 10, false, some 100⟩ ⟨"B) b", 2, 10, true, some 230⟩
    ⟨"C) c", 3, 10, false, some 360⟩ ⟨"D) d", 4, 10, false, some 490⟩
    100 230 360 490 12 'B' rfl rfl rfl rfl (Or.inr (Or.inl rfl))

/-- C8: the answer-reveal confetti burst consists of exactly 20 particles;
particle `i` has launch angle `(i/20) * 2π` and start time
`reveal_start_time + 0.3`, so consecutive particles are spaced exactly
`2π/20` radians apart and all share the same start time. -/
theorem C8_confetti_burst (W H : ℤ) (letter : Char)
    (options_data : List OptionData) (r : ℚ) (cy : Option ℤ) :
    (create_answer_reveal_animation W H letter options_data r cy).confetti.length
      = 20 ∧
    (∀ i : ℕ, i < 20 →
      (create_answer_reveal_animation W H letter options_data r cy).confetti[i]? =
        some ⟨((i : ℚ) / 20) * 2, r + 3/10⟩) ∧
    (∀ i : ℕ, i + 1 < 20 →
      ((create_answer_reveal_animation W H letter options_data r cy).confetti.getD
          (i + 1) ⟨0, 0⟩).angle_pi_coeff * Real.pi -
        ((create_answer_reveal_animation W H letter options_data r cy).confetti.getD
          i ⟨0, 0⟩).angle_pi_coeff * Real.pi = 2 * Real.pi / 20) := by
  have hpart : ∀ j : ℕ, j < 20 →
      (create_answer_reveal_animation W H letter options_data r cy).confetti[j]? =
        some ⟨((j : ℚ) / 20) * 2, r + 3/10⟩ := by
    intro j hj
    show ((List.range 20).map
      fun (i : ℕ) => (⟨((i : ℚ) / 20) * 2, r + 3/10⟩ : Confetti))[j]? = _
    rw [List.getElem?_map, List.getElem?_range hj]
    rfl
  refine ⟨?_, hpart, ?_⟩
  · show ((List.range 20).map
      fun (i : ℕ) => (⟨((i : ℚ) / 20) * 2, r + 3/10⟩ : Confetti)).length = 20
    rw [List.length_map, List.length_range]
  · intro i hi
    have hgd : ∀ j : ℕ, j < 20 →
        (create_answer_reveal_animation W H letter options_data r cy).confetti.getD
          j ⟨0, 0⟩ = ⟨((j : ℚ) / 20) * 2, r + 3/10⟩ := by
      intro j hj
      rw [List.getD_eq_getElem?_getD, hpart j hj]
      rfl
    rw [hgd (i + 1) hi, hgd i (by omega)]
    show (((i + 1 : ℕ) : ℚ) / 20 * 2 : ℚ) * Real.pi -
      (((i : ℕ) : ℚ) / 20 * 2 : ℚ) * Real.pi = 2 * Real.pi / 20
    push_cast
    ring

/-- C8 witness: the first confetti particle exists, with angle coefficient 0 and
start time `7 + 0.3`. -/
theorem C8_confetti_witness :
    (create_answer_reveal_animation 1080 1920 'A' [] 7 none).confetti[0]? =
      some ⟨((0 : ℕ) : ℚ) / 20 * 2, 7 + 3/10⟩ :=
  (C8_confetti_burst 1080 1920 'A' [] 7 none).2.1 0 (by norm_num)

/-!
Layout engine: `LayoutGaps`, `LayoutPositions.calculate` and `validate_layout`
(`template_quiz.py` lines 33-138).  `QuizTemplate.generate` calls
`LayoutGaps.scale_all()` before `LayoutPositions.calculate`, so every gap below
is the scaled value; note `scale_all` resets `OPTIONS_TO_EXPLANATION` to
`res_scale(60)` (line 56), not the class default 80.
-/

/-- `LayoutGaps.PIP_TO_HOOK` after `scale_all`. -/
def PIP_TO_HOOK (W H : ℤ) : ℤ := res_scale W H 20 "height"

/-- `LayoutGaps.HOOK_TO_QUESTION` after `scale_all`. -/
def HOOK_TO_QUESTION (W H : ℤ) : ℤ := res_scale W H 30 "height"

/-- `LayoutGaps.QUESTION_TO_OPTIONS` after `scale_all`. -/
def QUESTION_TO_OPTIONS (W H : ℤ) : ℤ := res_scale W H 50 "height"

/-- `LayoutGaps.OPTION_HEIGHT` after `scale_all`. -/
def OPTION_HEIGHT (W H : ℤ) : ℤ := res_scale W H 100 "height"

/-- `LayoutGaps.OPTION_SPACING` after `scale_all`. -/
def OPTION_SPACING (W H : ℤ) : ℤ := res_scale W H 30 "height"

/-- `LayoutGaps.OPTIONS_TO_TIMER` after `scale_all`. -/
def OPTIONS_TO_TIMER (W H : ℤ) : ℤ := res_scale W H 40 "height"

/-- `LayoutGaps.TIMER_LABEL_TO_BAR` after `scale_all`. -/
def TIMER_LABEL_TO_BAR (W H : ℤ) : ℤ := res_scale W H 30 "height"

/-- `LayoutGaps.OPTIONS_TO_EXPLANATION` after `scale_all` (line 56: `res_scale(60)`). -/
def OPTIONS_TO_EXPLANATION (W H : ℤ) : ℤ := res_scale W H 60 "height"

/-- The Y map computed by `LayoutPositions.calculate` (lines 72-107). -/
structure Layout where
  pip_y : ℤ
  pip_height : ℤ
  pip_bottom : ℤ
  hook_y : ℤ
  question_y : ℤ
  options_start_y : ℤ
  timer_label_y : ℤ
  timer_bar_y : ℤ
  explanation_y : ℤ
  cta_y : ℤ

/-- The bottom edge of the 4th option:
`options_start_y + OPTION_HEIGHT * 4 + OPTION_SPACING * 3` (lines 94-96). -/
def option_4_bottom (W H : ℤ) (options_start_y : ℤ) : ℤ :=
  options_start_y + OPTION_HEIGHT W H * 4 + OPTION_SPACING W H * 3

/-- `LayoutPositions.calculate(pip_y, pip_height)` (lines 72-107): the downward
flow from the PIP anchor, plus the bottom-anchored CTA at
`HEIGHT - res_scale(420)`. -/
def LayoutPositions_calculate (W H pip_y pip_height : ℤ) : Layout :=
  let pip_bottom := pip_y + pip_height
  let hook_y := pip_bottom + PIP_TO_HOOK W H
  let hook_height := res_scale W H 130 "height"
  let question_y := hook_y + hook_height + HOOK_TO_QUESTION W H
  let question_height := res_scale W H 150 "height"
  let options_start_y := question_y + question_height + QUESTION_TO_OPTIONS W H
  let o4b := option_4_bottom W H options_start_y
  let timer_label_y := o4b + OPTIONS_TO_TIMER W H
  let timer_bar_y := timer_label_y + res_scale W H 80 "height" + TIMER_LABEL_TO_BAR W H
  let explanation_y := o4b + OPTIONS_TO_EXPLANATION W H
  let cta_y := H - res_scale W H 420 "height"
  { pip_y := pip_y, pip_height := pip_height, pip_bottom := pip_bottom,
    hook_y := hook_y, question_y := question_y, options_start_y := options_start_y,
    timer_label_y := timer_label_y, timer_bar_y := timer_bar_y,
    explanation_y := explanation_y, cta_y := cta_y }

/-- C6: for every valid anchor pair (`pip_y`, `pip_height`) within canvas
bounds, every flow-derived element's Y is at or below (`≥`, Y grows downward)
its predecessor's bottom edge plus that element's gap — hook below the PIP,
question below the hook's 130px box, options below the question's 150px card,
timer label below the 4th option's bottom, timer bar below the 80px label,
explanation below the 4th option's bottom — and the CTA Y always equals exactly
`canvasHeight - res_scale(420)`, regardless of how tall the flow grew. -/
theorem C6_layout_flow (W H pip_y pip_height : ℤ)
    (hy : 0 ≤ pip_y) (hh : 0 ≤ pip_height) (hb : pip_y + pip_height ≤ H) :
    (LayoutPositions_calculate W H pip_y pip_height).hook_y ≥
      (LayoutPositions_calculate W H pip_y pip_height).pip_bottom +
        PIP_TO_HOOK W H ∧
    (LayoutPositions_calculate W H pip_y pip_height).question_y ≥
      (LayoutPositions_calculate W H pip_y pip_height).hook_y +
        res_scale W H 130 "height" + HOOK_TO_QUESTION W H ∧
    (LayoutPositions_calculate W H pip_y pip_height).options_start_y ≥
      (LayoutPositions_calculate W H pip_y pip_height).question_y +
        res_scale W H 150 "height" + QUESTION_TO_OPTIONS W H ∧
    (LayoutPositions_calculate W H pip_y pip_height).timer_label_y ≥
      option_4_bottom W H
        (LayoutPositions_calculate W H pip_y pip_height).options_start_y +
        OPTIONS_TO_TIMER W H ∧
    (LayoutPositions_calculate W H pip_y pip_height).timer_bar_y ≥
      (LayoutPositions_calculate W H pip_y pip_height).timer_label_y +
        res_scale W H 80 "height" + TIMER_LABEL_TO_BAR W H ∧
    (LayoutPositions_calculate W H pip_y pip_height).explanation_y ≥
      option_4_bottom W H
        (LayoutPositions_calculate W H pip_y pip_height).options_start_y +
        OPTIONS_TO_EXPLANATION W H ∧
    (LayoutPositions_calculate W H pip_y pip_height).cta_y =
      H - res_scale W H 420 "height" := by
  refine ⟨le_refl _, le_refl _, le_refl _, le_refl _, le_refl _, le_refl _, rfl⟩

/-- C6 witness: the main pipeline's anchor at the canonical resolution
(`PIP_Y = res_scale(150) = 150`, `PIP_HEIGHT = res_scale(495) = 495`). -/
theorem C6_layout_witness :
    (LayoutPositions_calculate 1080 1920 150 495).hook_y ≥
      (LayoutPositions_calculate 1080 1920 150 495).pip_bottom +
        PIP_TO_HOOK 1080 1920 ∧
    (LayoutPositions_calculate 1080 1920 150 495).question_y ≥
      (LayoutPositions_calculate 1080 1920 150 495).hook_y +
        res_scale 1080 1920 130 "height" + HOOK_TO_QUESTION 1080 1920 ∧
    (LayoutPositions_calculate 1080 1920 150 495).options_start_y ≥
      (LayoutPositions_calculate 1080 1920 150 495).question_y +
        res_scale 1080 1920 150 "height" + QUESTION_TO_OPTIONS 1080 1920 ∧
    (LayoutPositions_calculate 1080 1920 150 495).timer_label_y ≥
      option_4_bottom 1080 1920
        (LayoutPositions_calculate 1080 1920 150 495).options_start_y +
        OPTIONS_TO_TIMER 1080 1920 ∧
    (LayoutPositions_calculate 1080 1920 150 495).timer_bar_y ≥
      (LayoutPositions_calculate 1080 1920 150 495).timer_label_y +
        res_scale 1080 1920 80 "height" + TIMER_LABEL_TO_BAR 1080 1920 ∧
    (LayoutPositions_calculate 1080 1920 150 495).explanation_y ≥
      option_4_bottom 1080 1920
        (LayoutPositions_calculate 1080 1920 150 495).options_start_y +
        OPTIONS_TO_EXPLANATION 1080 1920 ∧
    (LayoutPositions_calculate 1080 1920 150 495).cta_y =
      1920 - res_scale 1080 1920 420 "height" :=
  C6_layout_flow 1080 1920 150 495 (by norm_num) (by norm_num) (by norm_num)

/-- The seven named checks of `validate_layout` (lines 114-122), in dict order:
(name, pos, min_pos, error message). -/
def validate_checks (W H : ℤ) (L : Layout) : List (String × ℤ × ℤ × String) :=
  [("PIP top", L.pip_y, 0, "Too close to top edge"),
   ("Hook", L.hook_y, L.pip_bottom, "Hook overlaps PIP"),
   ("Question", L.question_y, L.hook_y + res_scale W H 130 "height",
     "Question overlaps hook"),
   ("Options", L.options_start_y, L.question_y + res_scale W H 150 "height",
     "Options overlap question"),
   ("Timer", L.timer_bar_y, L.options_start_y + res_scale W H 500 "height",
     "Timer overlaps options"),
   ("CTA", L.cta_y, H - res_scale W H 500 "height", "CTA too close to bottom"),
   ("Bottom safe", L.timer_bar_y + res_scale W H 50 "height",
     H - res_scale W H 400 "height", "Timer in YouTube UI zone")]

/-- The warning messages `validate_layout` accumulates and prints
(lines 124-134): per check, one message when `pos < min_pos` and one when
`pos > HEIGHT`. -/
def validate_warnings (W H : ℤ) (L : Layout) : List String :=
  (validate_checks W H L).flatMap fun c =>
    (if c.2.1 < c.2.2.1 then [c.1 ++ ": " ++ c.2.2.2] else []) ++
    (if c.2.1 > H then [c.1 ++ ": Off-screen!"] else [])

/-- `validate_layout` returns `len(warnings) == 0` (line 138); the warnings
themselves are printed, not returned. -/
def validate_layout (W H : ℤ) (L : Layout) : Bool :=
  (validate_warnings W H L).length == 0

/-- The layout stage of `QuizTemplate.generate` (lines 265-269): the layout is
computed, validated, and used downstream unconditionally — a failed validation
only prints advice, it never replaces or aborts the layout. -/
def generate_layout_stage (W H pip_y pip_height : ℤ) : Layout × Bool :=
  let L := LayoutPositions_calculate W H pip_y pip_height
  (L, validate_layout W H L)

/-- A layout passing all seven checks at 1080×1920 except `PIP top`
(`pip_y = -1 < 0`). -/
def C7_L1 : Layout :=
  { pip_y := -1, pip_height := 495, pip_bottom := 645, hook_y := 665,
    question_y := 825, options_start_y := 1025, timer_label_y := 1465,
    timer_bar_y := 1550, explanation_y := 1580, cta_y := 1500 }

/-- A layout passing all seven checks at 1080×1920 except `Hook`
(`hook_y = 640 < pip_bottom = 645`). -/
def C7_L2 : Layout :=
  { pip_y := 150, pip_height := 495, pip_bottom := 645, hook_y := 640,
    question_y := 825, options_start_y := 1025, timer_label_y := 1465,
    timer_bar_y := 1550, explanation_y := 1580, cta_y := 1500 }

/-- C7 counterexample: `validate_layout` does not return a result of the form
{ok, violations}.  The concrete layouts `C7_L1` and `C7_L2` produce different
violation-message lists (a PIP-top violation versus a hook-overlap violation),
yet `validate_layout` returns the identical bare boolean `false` on both — the
violations list is not recoverable from the returned value, because the code
returns only `len(warnings) == 0` and prints the messages itself. -/
theorem C7_counterexample :
    validate_warnings 1080 1920 C7_L1 = ["PIP top: Too close to top edge"] ∧
    validate_warnings 1080 1920 C7_L2 = ["Hook: Hook overlaps PIP"] ∧
    validate_warnings 1080 1920 C7_L1 ≠ validate_warnings 1080 1920 C7_L2 ∧
    validate_layout 1080 1920 C7_L1 = validate_layout 1080 1920 C7_L2 ∧
    validate_layout 1080 1920 C7_L1 = false := by
  have hrs : ∀ v : ℤ, res_scale 1080 1920 (v : ℚ) "height" = v := by
    intro v
    show truncInt ((v : ℚ) * ((1920 : ℚ) / (1920 : ℚ))) = v
    norm_num [truncInt_intCast]
  have h130 := hrs 130
  have h150 := hrs 150
  have h500 := hrs 500
  have h50 := hrs 50
  have h400 := hrs 400
  norm_num at h130 h150 h500 h50 h400
  refine ⟨?_, ?_, ?_, ?_, ?_⟩ <;>
    simp [validate_warnings, validate_checks, validate_layout, C7_L1, C7_L2,
      h130, h150, h500, h50, h400]

/-- C7 (amended): `validate_layout` evaluates exactly the seven named layout
constraints (PIP top, Hook, Question, Options, Timer, CTA, Bottom safe — each
also checked against the canvas height) and returns only the boolean ok,
`true` exactly when the list of human-readable violation messages is empty
(the messages themselves are printed to the log, not returned); the violations
are advisory only — the layout `QuizTemplate.generate` passes downstream is
`LayoutPositions.calculate`'s output whatever the validation result, so the
caller always proceeds and merely logs violations. -/
theorem C7_validate_advisory :
    (∀ (W H : ℤ) (L : Layout), (validate_checks W H L).length = 7) ∧
    (∀ (W H : ℤ) (L : Layout), (validate_checks W H L).map Prod.fst =
      ["PIP top", "Hook", "Question", "Options", "Timer", "CTA", "Bottom safe"]) ∧
    (∀ (W H : ℤ) (L : Layout),
      validate_layout W H L = true ↔ validate_warnings W H L = []) ∧
    (∀ W H pip_y pip_height : ℤ,
      (generate_layout_stage W H pip_y pip_height).1 =
        LayoutPositions_calculate W H pip_y pip_height) := by
  refine ⟨fun W H L => rfl, fun W H L => rfl, fun W H L => ?_, fun W H p q => rfl⟩
  unfold validate_layout
  rw [beq_iff_eq, List.length_eq_zero]

/-!
CTA banner: `QuizVisualEffects.create_cta_banner`,
`visual_effects_quiz.py` lines 462-592.  Only the `full-banner` style builds
sub-clips (border, background banner, social text, link text); any other style
leaves the clip list empty and the function returns `None`.  Text-clip
construction is modelled as always succeeding.
-/

/-- One sub-clip of the CTA banner: role label, start and duration. -/
structure CtaClip where
  role : String
  start : ℚ
  duration : ℚ

/-- `create_cta_banner` restricted to its clip list and timing: for the
`full-banner` style it builds the border (inserted first), the background
banner (both spanning `social_start` to `link_start + link_duration`), the
social text (from `social_start` until `link_start`) and the link text (from
`link_start` for `link_duration`); the result is `None` when no clip was built
(lines 590-592). -/
def create_cta_banner (social_start _social_duration link_start link_duration : ℚ)
    (style : String) : Option (List CtaClip) :=
  let clips : List CtaClip :=
    if style = "full-banner" then
      let total_duration := (link_start + link_duration) - social_start
      let banner_bg : CtaClip := ⟨"banner_bg", social_start, total_duration⟩
      let border : CtaClip := ⟨"border", social_start, total_duration⟩
      let social : CtaClip :=
        ⟨"social", social_start, link_start - social_start⟩
      let link : CtaClip := ⟨"link", link_start, link_duration⟩
      [border, banner_bg, social, link]
    else []
  if clips.isEmpty then none else some clips

/-- C10: for any style argument other than `full-banner`, `create_cta_banner`
builds no sub-clips and returns `None` (an explicit null layer) rather than
raising, regardless of the timing arguments. -/
theorem C10_cta_non_banner_none
    (social_start social_duration link_start link_duration : ℚ) (style : String)
    (hstyle : style ≠ "full-banner") :
    create_cta_banner social_start social_duration link_start link_duration
      style = none := by
  unfold create_cta_banner
  rw [if_neg hstyle]
  rfl

/-- C10 witness: the legacy single-text style yields `None`. -/
theorem C10_cta_witness :
    create_cta_banner 10 2 11 2 "single-text" = none :=
  C10_cta_non_banner_none 10 2 11 2 "single-text" (by decide)
